import Mathlib

/-!
# Verification of the meeting-minutes document builder and transcription adapter

Shallow embedding of `src/app.py` (Flask service): the `/generate-word`
document builder (`generate_word`, with its inner helper `add_section`), the
filename derivation, the transcription adapter `transcribe_audio_file`, and the
`/api/transcribe_uploaded_audio` endpoint.

JSON payloads are modelled as association lists from key strings to values
that are either strings or arrays of items (an item being the association
list of its string-valued fields), matching the MeetingRecord data model of
the service: `data.get(key, default)` becomes an association-list lookup with
a default.  Documents are modelled as the list of elements (`headings`,
paragraphs, one table) that `python-docx` calls append to the document, in
call order.  External effects of the transcription path (pydub conversion,
the recognizer, the filesystem) are modelled by an environment of outcomes
and by explicit booleans recording which files exist and which steps ran.
-/

namespace App

/-- A JSON object whose values are strings: one item of `discussions`,
`innovations`, `decisions` or `actionPoints`, as its association list of
fields. -/
def Item : Type := List (String × String)

/-- `item.get(field, '')`: first binding of `field`, defaulting to `""`. -/
def Item.get (item : Item) (field : String) : String :=
  (List.lookup field item).getD ""

instance : DecidableEq Item :=
  inferInstanceAs (DecidableEq (List (String × String)))

/-- A JSON value of a MeetingRecord entry: a free-text string or an array of
items. -/
inductive JVal where
  | str : String → JVal
  | arr : List Item → JVal
deriving DecidableEq

/-- A request payload (`request.json`): a JSON object as an association list,
in key order.  MeetingRecord payloads bind their named scalar keys to
`JVal.str` values and their four list keys to `JVal.arr` values; unrecognized
extra keys may also be present. -/
def Payload : Type := List (String × JVal)

/-- `data.get(key, default)` for a scalar MeetingRecord field (the named
scalar keys of a MeetingRecord hold strings): the bound string, or the
default when the key is absent. -/
def getStr (data : Payload) (key dflt : String) : String :=
  match List.lookup key data with
  | some (JVal.str v) => v
  | some (JVal.arr _) => dflt
  | none => dflt

/-- `data.get(key, [])` for a list MeetingRecord field (the four list keys of
a MeetingRecord hold arrays of items). -/
def getArr (data : Payload) (key : String) : List Item :=
  match List.lookup key data with
  | some (JVal.arr v) => v
  | _ => []

/-- One element appended to the generated document: a heading with its level,
a paragraph, or a table given by its rows of cells. -/
inductive DocElem where
  | heading : String → Nat → DocElem
  | para : String → DocElem
  | table : List (List String) → DocElem
deriving DecidableEq

/-- The inner helper `add_section(title, items, field='text')` of
`generate_word`: a level-2 heading; the paragraph `"None"` when `items` is
empty; then one paragraph `"<i>. <item.get(field, '')>"` per item,
1-indexed (`enumerate(items, 1)`). -/
def add_section (title : String) (items : List Item) (field : String) :
    List DocElem :=
  [DocElem.heading title 2] ++
  (if items.isEmpty then [DocElem.para "None"] else []) ++
  (items.enumFrom 1).map
    (fun p => DocElem.para (toString p.1 ++ ". " ++ Item.get p.2 field))

/-- The Action Points part of `generate_word`: the level-2 heading, then a
table when `action_points` is non-empty (header row built by
`add_table(rows=1, cols=5)` followed by the five `hdr_cells[i].text`
assignments; one `add_row` of five cell assignments per item), else the
paragraph `"None"`. -/
def action_points_block (action_points : List Item) : List DocElem :=
  [DocElem.heading "Action Points and Presentations" 2] ++
  (if action_points.isEmpty then
    [DocElem.para "None"]
  else
    let hdr_cells :=
      ((((((List.replicate 5 "").set 0 "Action").set 1 "Responsibility").set
        2 "Others").set 3 "PDC").set 4 "Work Center")
    let rows := hdr_cells :: action_points.map (fun item =>
      (((((List.replicate 5 "").set 0 (Item.get item "action")).set 1
        (Item.get item "responsibility")).set 2 (Item.get item "others")).set
        3 (Item.get item "pdc")).set 4 (Item.get item "workcenter"))
    [DocElem.table rows])

/-- The document built by `generate_word` from payload `data`, with `now` the
`datetime.now().strftime("%Y-%m-%d %H:%M:%S")` render-time timestamp: title
heading, Meeting Information paragraphs, blank paragraph, Discussions
section, Action Points block, Innovations section, Decisions section,
generation-timestamp paragraph — in the source's call order. -/
def generate_word_doc (data : Payload) (now : String) : List DocElem :=
  [DocElem.heading "Minutes of Meeting" 0,
   DocElem.heading "Meeting Information" 1,
   DocElem.para ("Variant Name: " ++ getStr data "variantName" ""),
   DocElem.para ("Part Name: " ++ getStr data "partName" ""),
   DocElem.para ("Subject: " ++ getStr data "subject" ""),
   DocElem.para ("Meeting Number: " ++ getStr data "meetingNumber" ""),
   DocElem.para ("Title: " ++ getStr data "title" ""),
   DocElem.para ("Keywords: " ++ getStr data "keywords" ""),
   DocElem.para ("Meeting Date: " ++ getStr data "date" ""),
   DocElem.para ("Meeting Day: " ++ getStr data "day" ""),
   DocElem.para ("Meeting Time: " ++ getStr data "time" ""),
   DocElem.para ("Venue: " ++ getStr data "venue" ""),
   DocElem.para ("Members: " ++ getStr data "members" ""),
   DocElem.para ""] ++
  add_section "Discussions" (getArr data "discussions") "text" ++
  action_points_block (getArr data "actionPoints") ++
  add_section "Innovativeness / Lessons Learnt" (getArr data "innovations")
    "text" ++
  add_section "Decisions" (getArr data "decisions") "text" ++
  [DocElem.para ("\nGenerated on: " ++ now)]

/-- Python `s.replace('/', '-')` (single-character pattern and replacement is
a character-wise map). -/
def replaceSlash (s : String) : String :=
  String.mk (s.data.map (fun c => if c = '/' then '-' else c))

/-- Python `s.replace(':', '')` (single-character pattern, empty replacement
is a character-wise filter). -/
def dropColon (s : String) : String :=
  String.mk (s.data.filter (fun c => c != ':'))

/-- The download filename computed by `generate_word`:
`f"MoM_{data.get('meetingNumber', 'Unknown')}_{data.get('date', 'Unknown')}.docx"`
then `.replace('/', '-').replace(':', '')`. -/
def mom_filename (data : Payload) : String :=
  dropColon (replaceSlash
    ("MoM_" ++ getStr data "meetingNumber" "Unknown" ++ "_" ++
      getStr data "date" "Unknown" ++ ".docx"))

/-! ## Transcription adapter `transcribe_audio_file` -/

/-- Outcome of the pydub conversion step
(`AudioSegment.from_file(audio_path)`; `wav_path = "temp_audio.wav"`;
`audio.export(wav_path, format="wav")`), run only when the path does not end
in `.wav`: `fromFileError` is an exception in `from_file` (the local
`wav_path` is never assigned, no file is created); `exportError` is an
exception in `export` (`wav_path` is assigned; `created` records whether the
file reached the disk before the exception);  `ok` assigns `wav_path` and
creates the file. -/
inductive ConvertOutcome where
  | fromFileError : String → ConvertOutcome
  | exportError : String → Bool → ConvertOutcome
  | ok : ConvertOutcome
deriving DecidableEq

/-- Outcome of the recognizer call `r.recognize_google(audio_data)`:
transcript text, `sr.UnknownValueError`, `sr.RequestError` with its text, or
any other exception with its text. -/
inductive RecognizeOutcome where
  | ok : String → RecognizeOutcome
  | unknownValue : RecognizeOutcome
  | requestError : String → RecognizeOutcome
  | otherError : String → RecognizeOutcome
deriving DecidableEq

/-- The environment of one adapter invocation: the module-level flag
`AUDIO_PROCESSING_ENABLED`, the conversion outcome, the outcome of opening
and recording the audio source (`none` = no exception, `some e` = an
exception with text `e` anywhere in the `with audio_file as source` block),
and the recognizer outcome. -/
structure AdapterEnv where
  audioEnabled : Bool
  convert : ConvertOutcome
  load : Option String
  recognize : RecognizeOutcome
deriving DecidableEq

/-- The observable result of one `transcribe_audio_file` call: the returned
`(text, error)` pair, whether the local `wav_path` was assigned, whether the
intermediate `temp_audio.wav` file is on disk, and which steps were
attempted. -/
structure AdapterResult where
  text : Option String
  error : Option String
  wavPathSet : Bool
  wavOnDisk : Bool
  conversionAttempted : Bool
  loadAttempted : Bool
  recognitionAttempted : Bool
deriving DecidableEq

/-- The `finally` clause of `transcribe_audio_file`:
`if 'wav_path' in locals() and os.path.exists(wav_path): os.remove(wav_path)`. -/
def finallyCleanup (s : AdapterResult) : AdapterResult :=
  if s.wavPathSet && s.wavOnDisk then { s with wavOnDisk := false } else s

/-- The load / record / recognize steps of the `try` block of
`transcribe_audio_file`, with the `except` clauses mapping each exception to
its `(None, message)` return; `converted` records whether the conversion
branch ran (so `wav_path` is assigned and `temp_audio.wav` is on disk). -/
def recognitionSteps (env : AdapterEnv) (converted : Bool) : AdapterResult :=
  match env.load with
  | some e =>
      { text := none,
        error := some ("An error occurred during audio transcription: " ++ e),
        wavPathSet := converted, wavOnDisk := converted,
        conversionAttempted := converted, loadAttempted := true,
        recognitionAttempted := false }
  | none =>
      match env.recognize with
      | RecognizeOutcome.ok t =>
          { text := some t, error := none,
            wavPathSet := converted, wavOnDisk := converted,
            conversionAttempted := converted, loadAttempted := true,
            recognitionAttempted := true }
      | RecognizeOutcome.unknownValue =>
          { text := none,
            error := some "Google Speech Recognition could not understand audio",
            wavPathSet := converted, wavOnDisk := converted,
            conversionAttempted := converted, loadAttempted := true,
            recognitionAttempted := true }
      | RecognizeOutcome.requestError e =>
          { text := none,
            error := some
              ("Could not request results from Google Speech Recognition service; " ++ e),
            wavPathSet := converted, wavOnDisk := converted,
            conversionAttempted := converted, loadAttempted := true,
            recognitionAttempted := true }
      | RecognizeOutcome.otherError e =>
          { text := none,
            error := some ("An error occurred during audio transcription: " ++ e),
            wavPathSet := converted, wavOnDisk := converted,
            conversionAttempted := converted, loadAttempted := true,
            recognitionAttempted := true }

/-- Python `s.lower()`, character-wise (adequate for the ASCII names this
service handles). -/
def py_lower (s : String) : String := String.mk (s.data.map Char.toLower)

/-- Python `s.endswith(suffix)`. -/
def py_endswith (s suffix : String) : Bool := suffix.data.isSuffixOf s.data

/-- Python `s.startswith(pre)`. -/
def py_startswith (s pre : String) : Bool := pre.data.isPrefixOf s.data

/-- The `try` block of `transcribe_audio_file` (everything between the
feature-flag check and the `finally` clause): convert to WAV when
`audio_path.lower().endswith('.wav')` is false, then load and recognize. -/
def tryBlock (env : AdapterEnv) (audio_path : String) : AdapterResult :=
  if (py_endswith (py_lower audio_path) ".wav") = false then
    match env.convert with
    | ConvertOutcome.fromFileError e =>
        { text := none,
          error := some ("An error occurred during audio transcription: " ++ e),
          wavPathSet := false, wavOnDisk := false,
          conversionAttempted := true, loadAttempted := false,
          recognitionAttempted := false }
    | ConvertOutcome.exportError e created =>
        { text := none,
          error := some ("An error occurred during audio transcription: " ++ e),
          wavPathSet := true, wavOnDisk := created,
          conversionAttempted := true, loadAttempted := false,
          recognitionAttempted := false }
    | ConvertOutcome.ok => recognitionSteps env true
  else
    recognitionSteps env false

/-- `transcribe_audio_file(audio_path)`: return
`(None, "Audio processing libraries not available.")` at once when
`AUDIO_PROCESSING_ENABLED` is false (before the `try`, so the `finally` never
runs), else run the `try` block and the `finally` cleanup. -/
def transcribe_audio_file (env : AdapterEnv) (audio_path : String) :
    AdapterResult :=
  if env.audioEnabled = false then
    { text := none, error := some "Audio processing libraries not available.",
      wavPathSet := false, wavOnDisk := false,
      conversionAttempted := false, loadAttempted := false,
      recognitionAttempted := false }
  else
    finallyCleanup (tryBlock env audio_path)

/-! ## HTTP endpoint `/api/transcribe_uploaded_audio` -/

/-- One entry of `request.files`: an uploaded file with its client-supplied
filename. -/
structure UploadedFile where
  filename : String
deriving DecidableEq

/-- `os.path.join('/tmp', b)` with POSIX semantics for these arguments: `b`
itself when it is absolute, else `'/tmp' + '/' + b`. -/
def os_path_join_tmp (b : String) : String :=
  if py_startswith b "/" then b else "/tmp" ++ "/" ++ b

/-- Python truthiness of the adapter's `text` result (`if text:`): false for
`None` and for the empty string. -/
def pyTruthy : Option String → Bool
  | some t => t != ""
  | none => false

/-- The observable response of one `/api/transcribe_uploaded_audio` request:
HTTP status, the JSON body fields (`success`, `transcribedText`, `message` —
absent fields are `none`, and a `message` of `none` with status 500 is the
JSON `null` produced by `jsonify` when `error` is `None`), whether the
adapter was called, whether the temporary upload under `/tmp` was created,
and whether it remains after the response. -/
structure TranscribeResponse where
  status : Nat
  success : Bool
  transcribedText : Option String
  message : Option String
  adapterCalled : Bool
  tempFileCreated : Bool
  tempFileRemains : Bool
deriving DecidableEq

/-- The `/api/transcribe_uploaded_audio` handler `transcribe_uploaded_audio`:
reject with 400 when `request.files` has no `audio_file` entry or when its
filename is empty; otherwise save the upload to
`os.path.join('/tmp', audio_file.filename)`, call the adapter, remove the
temporary upload, and answer 200 with the text when `if text:` holds, else
500 with the error.  (The final `return ... 'Unknown error'` of the source is
unreachable: a non-empty filename makes the `FileStorage` truthy.) -/
def transcribe_uploaded_audio (files : List (String × UploadedFile))
    (env : AdapterEnv) : TranscribeResponse :=
  match List.lookup "audio_file" files with
  | none =>
      { status := 400, success := false, transcribedText := none,
        message := some "No audio file part in the request",
        adapterCalled := false, tempFileCreated := false,
        tempFileRemains := false }
  | some audio_file =>
      if audio_file.filename = "" then
        { status := 400, success := false, transcribedText := none,
          message := some "No selected audio file",
          adapterCalled := false, tempFileCreated := false,
          tempFileRemains := false }
      else
        let temp_audio_path := os_path_join_tmp audio_file.filename
        let r := transcribe_audio_file env temp_audio_path
        if pyTruthy r.text then
          { status := 200, success := true, transcribedText := r.text,
            message := none, adapterCalled := true, tempFileCreated := true,
            tempFileRemains := false }
        else
          { status := 500, success := false, transcribedText := none,
            message := r.error, adapterCalled := true,
            tempFileCreated := true, tempFileRemains := false }

/-! ## HTTP endpoint `/generate-word` -/

/-- The observable response of one `/generate-word` request: either the
`send_file` attachment (its filename, document content and MIME type) with
status 200, or the `jsonify({'error': str(e)})` body with status 500
produced by the `except` clause. -/
inductive GenResult where
  | fileResp : String → List DocElem → String → GenResult
  | errResp : Nat → String → GenResult
deriving DecidableEq

/-- The `/generate-word` handler `generate_word`: `reqJson` is the outcome of
`request.json` (`Except.error e` when reading the payload raises with text
`e`), `save` the outcome of `doc.save(mem_file)` on the built document; any
exception is caught by the `except Exception` clause and answered as
`jsonify({'error': str(e)}), 500`; otherwise the document is streamed back
with its derived filename and the fixed MIME type. -/
def generate_word (reqJson : Except String Payload)
    (save : List DocElem → Except String Unit) (now : String) : GenResult :=
  match reqJson with
  | Except.error e => GenResult.errResp 500 e
  | Except.ok data =>
      match save (generate_word_doc data now) with
      | Except.error e => GenResult.errResp 500 e
      | Except.ok _ =>
          GenResult.fileResp (mom_filename data) (generate_word_doc data now)
            "application/vnd.openxmlformats-officedocument.wordprocessingml.document"

/-! ## Observation helpers and concrete inputs used by the theorems -/

/-- The headings of a document, in order, with their levels. -/
def headingsOf (doc : List DocElem) : List (String × Nat) :=
  doc.filterMap (fun e =>
    match e with
    | DocElem.heading t l => some (t, l)
    | _ => none)

/-- The five action-point fields of an item that the table reads, as a
tuple. -/
def apFields (item : Item) : String × String × String × String × String :=
  (Item.get item "action", Item.get item "responsibility",
   Item.get item "others", Item.get item "pdc", Item.get item "workcenter")

/-- A run of the adapter in which every library is available and the
recognizer answers with transcript `t`. -/
def envRecognizes (t : String) : AdapterEnv :=
  { audioEnabled := true, convert := ConvertOutcome.ok, load := none,
    recognize := RecognizeOutcome.ok t }

/-- A run of the adapter with the optional audio libraries unavailable. -/
def envDisabled : AdapterEnv :=
  { audioEnabled := false, convert := ConvertOutcome.ok, load := none,
    recognize := RecognizeOutcome.ok "hello" }

/-- A run of the adapter in which the recognizer raises
`sr.UnknownValueError`. -/
def envUnknown : AdapterEnv :=
  { audioEnabled := true, convert := ConvertOutcome.ok, load := none,
    recognize := RecognizeOutcome.unknownValue }

/-- A run of the adapter in which the recognizer raises
`sr.RequestError("down")`. -/
def envRequestErr : AdapterEnv :=
  { audioEnabled := true, convert := ConvertOutcome.ok, load := none,
    recognize := RecognizeOutcome.requestError "down" }

/-- A payload carrying only a discussion item and an unrecognized key. -/
def demoPayload : Payload :=
  [("meetingNumber", JVal.str "12"), ("date", JVal.str "2024-01-05"),
   ("discussions", JVal.arr [[("text", "Budget review")]]),
   ("actionPoints", JVal.arr [])]

/-- `demoPayload` with an extra unrecognized key and an extra field on its
discussion item. -/
def demoPayloadExtra : Payload :=
  [("meetingNumber", JVal.str "12"), ("date", JVal.str "2024-01-05"),
   ("discussions", JVal.arr [[("text", "Budget review"), ("junk", "zzz")]]),
   ("actionPoints", JVal.arr []), ("unrecognizedKey", JVal.str "ignored")]

/-- A serializer outcome that always succeeds, for concrete endpoint runs. -/
def saveOk : List DocElem → Except String Unit := fun _ => Except.ok ()

/-! ## Helper lemmas -/

lemma getStr_congr {d1 d2 : Payload} (k dflt : String)
    (h : List.lookup k d1 = List.lookup k d2) :
    getStr d1 k dflt = getStr d2 k dflt := by
  unfold getStr
  rw [h]

lemma getStr_of_lookup_none {data : Payload} {k : String} (dflt : String)
    (h : List.lookup k data = none) : getStr data k dflt = dflt := by
  unfold getStr
  rw [h]

lemma getStr_of_lookup_str {data : Payload} {k v : String} (dflt : String)
    (h : List.lookup k data = some (JVal.str v)) : getStr data k dflt = v := by
  unfold getStr
  rw [h]

lemma enumFrom_map {α β : Type} (n : Nat) (l : List α) (f : α → β) :
    (l.map f).enumFrom n = (l.enumFrom n).map (Prod.map id f) := by
  induction l generalizing n with
  | nil => rfl
  | cons a t ih => simp [List.enumFrom, ih]

lemma isEmpty_congr_of_map {α β : Type} {l1 l2 : List α} {f : α → β}
    (h : l1.map f = l2.map f) : l1.isEmpty = l2.isEmpty := by
  cases l1 <;> cases l2 <;> simp_all

lemma headingsOf_append (l m : List DocElem) :
    headingsOf (l ++ m) = headingsOf l ++ headingsOf m := by
  simp [headingsOf]

lemma headingsOf_para_map {α : Type} (l : List α) (f : α → String) :
    headingsOf (l.map (fun a => DocElem.para (f a))) = [] := by
  simp [headingsOf]

lemma headingsOf_add_section (title : String) (items : List Item)
    (field : String) :
    headingsOf (add_section title items field) = [(title, 2)] := by
  cases items with
  | nil => rfl
  | cons a t => simp [add_section, headingsOf_append, headingsOf_para_map,
      headingsOf]

lemma headingsOf_action_points (aps : List Item) :
    headingsOf (action_points_block aps) =
      [("Action Points and Presentations", 2)] := by
  cases aps with
  | nil => rfl
  | cons a t => rfl

lemma ne_of_data_getElem {s t : String} (i : Nat)
    (h : s.data[i]? ≠ t.data[i]?) : s ≠ t :=
  fun he => h (by rw [he])

lemma data_getElem_append (s e : String) (i : Nat) (h : i < s.data.length) :
    (s ++ e).data[i]? = s.data[i]? := by
  rw [String.data_append, List.getElem?_append_left h]

lemma free_items_para_map (fld : String) (l : List Item) :
    (l.enumFrom 1).map
        (fun p => DocElem.para (toString p.1 ++ ". " ++ Item.get p.2 fld)) =
      ((l.map (fun it => Item.get it fld)).enumFrom 1).map
        (fun p => DocElem.para (toString p.1 ++ ". " ++ p.2)) := by
  rw [enumFrom_map, List.map_map]
  rfl

lemma add_section_congr (title fld : String) {l1 l2 : List Item}
    (h : l1.map (fun it => Item.get it fld) =
      l2.map (fun it => Item.get it fld)) :
    add_section title l1 fld = add_section title l2 fld := by
  unfold add_section
  rw [isEmpty_congr_of_map h, free_items_para_map, free_items_para_map, h]

lemma action_rows_factor (l : List Item) :
    l.map (fun item =>
        (((((List.replicate 5 "").set 0 (Item.get item "action")).set 1
          (Item.get item "responsibility")).set 2 (Item.get item "others")).set
          3 (Item.get item "pdc")).set 4 (Item.get item "workcenter")) =
      (l.map apFields).map
        (fun t => [t.1, t.2.1, t.2.2.1, t.2.2.2.1, t.2.2.2.2]) := by
  rw [List.map_map]
  rfl

lemma action_points_block_congr {l1 l2 : List Item}
    (h : l1.map apFields = l2.map apFields) :
    action_points_block l1 = action_points_block l2 := by
  simp only [action_points_block]
  rw [isEmpty_congr_of_map h, action_rows_factor, action_rows_factor, h]

/-! ## Claim theorems -/

/--
C1 (corrected), counterexample: on the empty payload the rendered document
does not put its sections in the order claimed from §4.1 (title, Meeting
Information, Discussions, Innovativeness/Lessons Learnt, Decisions, Action
Points): the Action Points heading comes directly after the Discussions
section, before Innovativeness/Lessons Learnt and Decisions.
-/
theorem document_section_order_cex :
    headingsOf (generate_word_doc [] "2024-01-01 00:00:00") =
      [("Minutes of Meeting", 0), ("Meeting Information", 1),
       ("Discussions", 2), ("Action Points and Presentations", 2),
       ("Innovativeness / Lessons Learnt", 2), ("Decisions", 2)] ∧
    headingsOf (generate_word_doc [] "2024-01-01 00:00:00") ≠
      [("Minutes of Meeting", 0), ("Meeting Information", 1),
       ("Discussions", 2), ("Innovativeness / Lessons Learnt", 2),
       ("Decisions", 2), ("Action Points and Presentations", 2)] := by
  decide

/--
C1 (amended): for every payload, the generated document renders its section
headings in exactly this order — the title heading, the Meeting Information
section, the Discussions section, the Action Points section, then the
Innovativeness/Lessons Learnt and Decisions sections — and ends with the
trailing generation-timestamp paragraph.
-/
theorem document_section_order (data : Payload) (now : String) :
    headingsOf (generate_word_doc data now) =
      [("Minutes of Meeting", 0), ("Meeting Information", 1),
       ("Discussions", 2), ("Action Points and Presentations", 2),
       ("Innovativeness / Lessons Learnt", 2), ("Decisions", 2)] ∧
    (generate_word_doc data now).getLast? =
      some (DocElem.para ("\nGenerated on: " ++ now)) := by
  constructor
  · unfold generate_word_doc
    rw [headingsOf_append, headingsOf_append, headingsOf_append,
      headingsOf_append, headingsOf_append, headingsOf_add_section,
      headingsOf_add_section, headingsOf_add_section,
      headingsOf_action_points]
    rfl
  · simp only [generate_word_doc, ← List.append_assoc]
    exact List.getLast?_concat _

/--
C2 (confirmed): for every item list, a free-text section built by
`add_section` with field `"text"` (as the Discussions,
Innovativeness/Lessons Learnt and Decisions sections are) is the level-2
heading followed by exactly the literal paragraph "None" when the list is
empty, and otherwise by exactly one paragraph per item, the i-th formatted
"<i>. <item.text>" with 1-based index in input order — no "None" paragraph
and no extra paragraphs, as the section's length confirms.
-/
theorem add_section_body (title : String) (items : List Item) :
    add_section title items "text" =
      DocElem.heading title 2 ::
        (if items.isEmpty then [DocElem.para "None"]
         else (items.enumFrom 1).map
           (fun p =>
             DocElem.para (toString p.1 ++ ". " ++ Item.get p.2 "text"))) ∧
    (add_section title items "text").length =
      1 + (if items.isEmpty then 1 else items.length) := by
  cases items with
  | nil => exact ⟨rfl, rfl⟩
  | cons a t =>
      constructor
      · simp [add_section]
      · simp [add_section, List.enumFrom_length]
        omega

/--
C3 (confirmed): for every payload the Action Points section is the level-2
heading followed, when `actionPoints` has `N > 0` items, by a table of
exactly `N + 1` rows whose first row is the fixed header Action,
Responsibility, Others, PDC, Work Center and whose i-th following row holds
the i-th item's action, responsibility, others, pdc, workcenter values
(missing fields rendered as the empty string); when `actionPoints` is empty,
by the literal paragraph "None" and no table.
-/
theorem action_points_section_spec (aps : List Item) :
    action_points_block aps =
      DocElem.heading "Action Points and Presentations" 2 ::
        (if aps.isEmpty then [DocElem.para "None"]
         else [DocElem.table
           (["Action", "Responsibility", "Others", "PDC", "Work Center"] ::
             aps.map (fun item =>
               [Item.get item "action", Item.get item "responsibility",
                Item.get item "others", Item.get item "pdc",
                Item.get item "workcenter"]))]) ∧
    (aps.isEmpty = false →
      ∃ rows, action_points_block aps =
        [DocElem.heading "Action Points and Presentations" 2,
         DocElem.table rows] ∧ rows.length = aps.length + 1) := by
  constructor
  · cases aps with
    | nil => rfl
    | cons a t => rfl
  · intro h
    cases aps with
    | nil => simp at h
    | cons a t =>
        refine ⟨_, rfl, ?_⟩
        simp

/--
C3 witness: a one-item action-point list yields the heading and a two-row
table.
-/
theorem action_points_section_spec_witness :
    ∃ rows,
      action_points_block [[("action", "Do")]] =
        [DocElem.heading "Action Points and Presentations" 2,
         DocElem.table rows] ∧
      rows.length = ([[("action", "Do")]] : List Item).length + 1 :=
  (action_points_section_spec [[("action", "Do")]]).2 rfl

/--
C4 (corrected), counterexample: on a payload with no `meetingNumber` and no
`date` key the filename is `"MoM_Unknown_Unknown.docx"`, not the
`"MoM__.docx"` that the claimed empty-string default would produce.
-/
theorem mom_filename_cex :
    mom_filename [] = "MoM_Unknown_Unknown.docx" ∧
    mom_filename [] ≠ "MoM__.docx" := by
  decide

/--
C4 (amended): the download filename is
`"MoM_<meetingNumber>_<date>.docx"` with a missing `meetingNumber` or `date`
rendering as `"Unknown"` (not as the empty string), after replacing every
`'/'` with `'-'` and deleting every `':'`; neither `'/'` nor `':'` ever
occurs in the final filename, and when both fields are present and already
free of `'/'` and `':'` the filename is the plain interpolation.
-/
theorem mom_filename_spec (data : Payload) :
    (∀ c ∈ (mom_filename data).data, c ≠ '/' ∧ c ≠ ':') ∧
    (List.lookup "meetingNumber" data = none →
      List.lookup "date" data = none →
      mom_filename data = "MoM_Unknown_Unknown.docx") ∧
    (∀ mn dt, List.lookup "meetingNumber" data = some (JVal.str mn) →
      List.lookup "date" data = some (JVal.str dt) →
      (∀ c ∈ mn.data, c ≠ '/' ∧ c ≠ ':') →
      (∀ c ∈ dt.data, c ≠ '/' ∧ c ≠ ':') →
      mom_filename data = "MoM_" ++ mn ++ "_" ++ dt ++ ".docx") := by
  refine ⟨?_, ?_, ?_⟩
  · intro c hc
    unfold mom_filename dropColon replaceSlash at hc
    rw [List.mem_filter] at hc
    obtain ⟨hmem, hcolon⟩ := hc
    obtain ⟨a, _, ha⟩ := List.mem_map.mp hmem
    constructor
    · by_cases h : a = '/'
      · rw [h] at ha
        simp at ha
        rw [← ha]
        decide
      · rw [if_neg h] at ha
        rw [← ha]
        exact h
    · simpa using hcolon
  · intro h1 h2
    unfold mom_filename
    rw [getStr_of_lookup_none "Unknown" h1, getStr_of_lookup_none "Unknown" h2]
    decide
  · intro mn dt h1 h2 hmn hdt
    unfold mom_filename
    rw [getStr_of_lookup_str "Unknown" h1, getStr_of_lookup_str "Unknown" h2]
    have hclean : ∀ c ∈ ("MoM_" ++ mn ++ "_" ++ dt ++ ".docx").data,
        c ≠ '/' ∧ c ≠ ':' := by
      intro c hc
      simp only [String.data_append, List.mem_append] at hc
      rcases hc with ((((hc | hc) | hc) | hc) | hc)
      · exact (by decide : ∀ x ∈ "MoM_".data, x ≠ '/' ∧ x ≠ ':') c hc
      · exact hmn c hc
      · exact (by decide : ∀ x ∈ "_".data, x ≠ '/' ∧ x ≠ ':') c hc
      · exact hdt c hc
      · exact (by decide : ∀ x ∈ ".docx".data, x ≠ '/' ∧ x ≠ ':') c hc
    unfold dropColon replaceSlash
    rw [List.map_congr_left (fun a ha => if_neg (hclean a ha).1),
      List.map_id']
    have hmk : String.mk ("MoM_" ++ mn ++ "_" ++ dt ++ ".docx").data =
        "MoM_" ++ mn ++ "_" ++ dt ++ ".docx" := rfl
    rw [hmk, List.filter_eq_self.mpr
      (fun a ha => by simpa using (hclean a ha).2)]

/--
C4 witness: the filename for present, clean fields is the plain
interpolation, and for an empty payload both fields default to `"Unknown"`.
-/
theorem mom_filename_spec_witness :
    mom_filename [] = "MoM_Unknown_Unknown.docx" ∧
    mom_filename [("meetingNumber", JVal.str "12"),
        ("date", JVal.str "2024-01-05")] =
      "MoM_" ++ "12" ++ "_" ++ "2024-01-05" ++ ".docx" :=
  ⟨(mom_filename_spec []).2.1 rfl rfl,
   (mom_filename_spec _).2.2 "12" "2024-01-05" rfl rfl (by decide)
     (by decide)⟩

/--
C5 (corrected), counterexample: when the adapter returns the empty
transcript with no error, the endpoint answers 500 with `success = false`
(the handler tests Python truthiness of the text, which an empty transcript
fails), not the claimed 200 success response.
-/
theorem transcribe_empty_text_cex :
    (transcribe_audio_file (envRecognizes "") "/tmp/a.wav").text = some "" ∧
    (transcribe_audio_file (envRecognizes "") "/tmp/a.wav").error = none ∧
    (transcribe_uploaded_audio [("audio_file", ⟨"a.wav"⟩)]
        (envRecognizes "")).status = 500 ∧
    (transcribe_uploaded_audio [("audio_file", ⟨"a.wav"⟩)]
        (envRecognizes "")).success = false := by
  exact ⟨rfl, rfl, rfl, rfl⟩

/--
C5 (amended): whenever the transcription endpoint reaches the adapter (the
`audio_file` field is present with a non-empty filename), the temporary
upload is created and deleted unconditionally after the adapter call; the
endpoint answers 200 with `{"success": true, "transcribedText": <text>}`
exactly when the adapter's text is truthy (non-`None` and non-empty), and
otherwise — error, or empty transcript — answers 500 with
`{"success": false, "message": <error>}`.
-/
theorem transcribe_endpoint_responses (files : List (String × UploadedFile))
    (env : AdapterEnv) (f : UploadedFile)
    (hf : List.lookup "audio_file" files = some f)
    (hn : ¬ f.filename = "") :
    (transcribe_uploaded_audio files env).adapterCalled = true ∧
    (transcribe_uploaded_audio files env).tempFileCreated = true ∧
    (transcribe_uploaded_audio files env).tempFileRemains = false ∧
    (pyTruthy (transcribe_audio_file env
        (os_path_join_tmp f.filename)).text = true →
      transcribe_uploaded_audio files env =
        { status := 200, success := true,
          transcribedText := (transcribe_audio_file env
            (os_path_join_tmp f.filename)).text,
          message := none, adapterCalled := true, tempFileCreated := true,
          tempFileRemains := false }) ∧
    (pyTruthy (transcribe_audio_file env
        (os_path_join_tmp f.filename)).text = false →
      transcribe_uploaded_audio files env =
        { status := 500, success := false, transcribedText := none,
          message := (transcribe_audio_file env
            (os_path_join_tmp f.filename)).error,
          adapterCalled := true, tempFileCreated := true,
          tempFileRemains := false }) := by
  simp only [transcribe_uploaded_audio, hf]
  rw [if_neg hn]
  cases hpt : pyTruthy (transcribe_audio_file env
      (os_path_join_tmp f.filename)).text <;>
    simp [hpt]

/--
C5 witness: an upload named `a.wav` with a recognizer that answers
`"hello"` yields the 200 success response.
-/
theorem transcribe_endpoint_responses_witness :
    transcribe_uploaded_audio [("audio_file", ⟨"a.wav"⟩)]
        (envRecognizes "hello") =
      { status := 200, success := true, transcribedText := some "hello",
        message := none, adapterCalled := true, tempFileCreated := true,
        tempFileRemains := false } :=
  (transcribe_endpoint_responses [("audio_file", ⟨"a.wav"⟩)]
    (envRecognizes "hello") ⟨"a.wav"⟩ rfl (by decide)).2.2.2.1 rfl

/--
C7 (confirmed): after every adapter invocation — native `.wav` input or
converted input, success, recognized-but-empty, or any error — the
intermediate converted file `temp_audio.wav` does not remain on disk.
-/
theorem adapter_removes_intermediate (env : AdapterEnv)
    (audio_path : String) :
    (transcribe_audio_file env audio_path).wavOnDisk = false := by
  rcases env with ⟨en, conv, load, rec⟩
  cases en
  · rfl
  · cases hw : py_endswith (py_lower audio_path) ".wav"
    all_goals rcases conv with e | ⟨e, c⟩ | _
    all_goals try cases c
    all_goals rcases load with _ | e2
    all_goals rcases rec with t | _ | e3 | e4
    all_goals simp [transcribe_audio_file, tryBlock, recognitionSteps,
      finallyCleanup, hw]

/--
C6 (confirmed): the adapter maps each failure cause to a distinct reported
message — unavailable optional libraries fail immediately with their own
message and no conversion, load or recognition attempt; unintelligible audio
yields the "could not understand audio" message; a service failure yields a
message carrying the underlying transport error text; any other failure a
generic message carrying the underlying error — and the four messages are
pairwise distinct whatever the underlying error texts.
-/
theorem adapter_failure_messages (env : AdapterEnv) (audio_path : String) :
    (env.audioEnabled = false →
      transcribe_audio_file env audio_path =
        { text := none,
          error := some "Audio processing libraries not available.",
          wavPathSet := false, wavOnDisk := false,
          conversionAttempted := false, loadAttempted := false,
          recognitionAttempted := false }) ∧
    (env.audioEnabled = true →
      (py_endswith (py_lower audio_path) ".wav" = true ∨
        env.convert = ConvertOutcome.ok) →
      env.load = none →
      ((env.recognize = RecognizeOutcome.unknownValue →
        (transcribe_audio_file env audio_path).error =
          some "Google Speech Recognition could not understand audio") ∧
       (∀ e, env.recognize = RecognizeOutcome.requestError e →
        (transcribe_audio_file env audio_path).error =
          some ("Could not request results from Google Speech Recognition service; "
            ++ e)) ∧
       (∀ e, env.recognize = RecognizeOutcome.otherError e →
        (transcribe_audio_file env audio_path).error =
          some ("An error occurred during audio transcription: " ++ e)))) ∧
    (∀ e1 e2,
      ("Audio processing libraries not available." : String) ≠
        "Google Speech Recognition could not understand audio" ∧
      ("Audio processing libraries not available." : String) ≠
        "Could not request results from Google Speech Recognition service; "
          ++ e1 ∧
      ("Audio processing libraries not available." : String) ≠
        "An error occurred during audio transcription: " ++ e2 ∧
      ("Google Speech Recognition could not understand audio" : String) ≠
        "Could not request results from Google Speech Recognition service; "
          ++ e1 ∧
      ("Google Speech Recognition could not understand audio" : String) ≠
        "An error occurred during audio transcription: " ++ e2 ∧
      "Could not request results from Google Speech Recognition service; "
          ++ e1 ≠
        "An error occurred during audio transcription: " ++ e2) := by
  refine ⟨?_, ?_, ?_⟩
  · intro h
    rcases env with ⟨en, conv, load, rec⟩
    dsimp at h
    subst h
    rfl
  · intro hen hconv hload
    rcases env with ⟨en, conv, load, rec⟩
    dsimp at hen hconv hload
    subst hen
    subst hload
    refine ⟨?_, ?_, ?_⟩
    · intro hrec
      dsimp at hrec
      subst hrec
      rcases hconv with hw | hc
      · simp [transcribe_audio_file, tryBlock, recognitionSteps,
          finallyCleanup, hw]
      · subst hc
        cases hw : py_endswith (py_lower audio_path) ".wav" <;>
          simp [transcribe_audio_file, tryBlock, recognitionSteps,
            finallyCleanup, hw]
    · intro e hrec
      dsimp at hrec
      subst hrec
      rcases hconv with hw | hc
      · simp [transcribe_audio_file, tryBlock, recognitionSteps,
          finallyCleanup, hw]
      · subst hc
        cases hw : py_endswith (py_lower audio_path) ".wav" <;>
          simp [transcribe_audio_file, tryBlock, recognitionSteps,
            finallyCleanup, hw]
    · intro e hrec
      dsimp at hrec
      subst hrec
      rcases hconv with hw | hc
      · simp [transcribe_audio_file, tryBlock, recognitionSteps,
          finallyCleanup, hw]
      · subst hc
        cases hw : py_endswith (py_lower audio_path) ".wav" <;>
          simp [transcribe_audio_file, tryBlock, recognitionSteps,
            finallyCleanup, hw]
  · intro e1 e2
    refine ⟨by decide, ?_, ?_, ?_, ?_, ?_⟩
    · exact ne_of_data_getElem 0
        (by rw [data_getElem_append _ e1 0 (by decide)]; decide)
    · exact ne_of_data_getElem 1
        (by rw [data_getElem_append _ e2 1 (by decide)]; decide)
    · exact ne_of_data_getElem 0
        (by rw [data_getElem_append _ e1 0 (by decide)]; decide)
    · exact ne_of_data_getElem 0
        (by rw [data_getElem_append _ e2 0 (by decide)]; decide)
    · exact ne_of_data_getElem 0
        (by rw [data_getElem_append _ e1 0 (by decide),
          data_getElem_append _ e2 0 (by decide)]; decide)

/--
C6 witness: concrete runs — disabled libraries fail immediately with no
attempt; an unintelligible `.wav` input yields the
"could not understand audio" message; a service failure carries the
transport error text.
-/
theorem adapter_failure_messages_witness :
    transcribe_audio_file envDisabled "/tmp/a.mp3" =
      { text := none,
        error := some "Audio processing libraries not available.",
        wavPathSet := false, wavOnDisk := false,
        conversionAttempted := false, loadAttempted := false,
        recognitionAttempted := false } ∧
    (transcribe_audio_file envUnknown "/tmp/a.wav").error =
      some "Google Speech Recognition could not understand audio" ∧
    (transcribe_audio_file envRequestErr "/tmp/a.wav").error =
      some ("Could not request results from Google Speech Recognition service; "
        ++ "down") :=
  ⟨(adapter_failure_messages envDisabled "/tmp/a.mp3").1 rfl,
   ((adapter_failure_messages envUnknown "/tmp/a.wav").2.1 rfl
     (Or.inl (by decide)) rfl).1 rfl,
   ((adapter_failure_messages envRequestErr "/tmp/a.wav").2.1 rfl
     (Or.inl (by decide)) rfl).2.1 "down" rfl⟩

/--
C8 (confirmed): a request whose form data lacks the `audio_file` field is
answered 400 with message "No audio file part in the request", and one whose
`audio_file` entry has an empty filename is answered 400 with message
"No selected audio file" — in both cases with no adapter call and no
temporary file created.
-/
theorem transcribe_endpoint_validation
    (files : List (String × UploadedFile)) (env : AdapterEnv) :
    (List.lookup "audio_file" files = none →
      transcribe_uploaded_audio files env =
        { status := 400, success := false, transcribedText := none,
          message := some "No audio file part in the request",
          adapterCalled := false, tempFileCreated := false,
          tempFileRemains := false }) ∧
    (∀ f, List.lookup "audio_file" files = some f → f.filename = "" →
      transcribe_uploaded_audio files env =
        { status := 400, success := false, transcribedText := none,
          message := some "No selected audio file",
          adapterCalled := false, tempFileCreated := false,
          tempFileRemains := false }) := by
  constructor
  · intro h
    simp [transcribe_uploaded_audio, h]
  · intro f hf hname
    simp [transcribe_uploaded_audio, hf, hname]

/--
C8 witness: the two concrete rejections.
-/
theorem transcribe_endpoint_validation_witness :
    transcribe_uploaded_audio [] envDisabled =
      { status := 400, success := false, transcribedText := none,
        message := some "No audio file part in the request",
        adapterCalled := false, tempFileCreated := false,
        tempFileRemains := false } ∧
    transcribe_uploaded_audio [("audio_file", ⟨""⟩)] envDisabled =
      { status := 400, success := false, transcribedText := none,
        message := some "No selected audio file",
        adapterCalled := false, tempFileCreated := false,
        tempFileRemains := false } :=
  ⟨(transcribe_endpoint_validation [] envDisabled).1 rfl,
   (transcribe_endpoint_validation [("audio_file", ⟨""⟩)] envDisabled).2
     ⟨""⟩ rfl rfl⟩

/--
C9 (confirmed): every failure during `/generate-word` document construction
— a malformed payload (reading `request.json` raises) or a serialization
failure (`doc.save` raises) — is caught and answered as status 500 with body
`{"error": "<message>"}` carrying the underlying message; a document
response is produced only when both steps succeed, and then it carries the
complete document, never a partial one.
-/
theorem generate_word_failure_handling (reqJson : Except String Payload)
    (save : List DocElem → Except String Unit) (now : String) :
    (∀ e, reqJson = Except.error e →
      generate_word reqJson save now = GenResult.errResp 500 e) ∧
    (∀ data e, reqJson = Except.ok data →
      save (generate_word_doc data now) = Except.error e →
      generate_word reqJson save now = GenResult.errResp 500 e) ∧
    (∀ fname doc mt,
      generate_word reqJson save now = GenResult.fileResp fname doc mt →
      ∃ data, reqJson = Except.ok data ∧
        save (generate_word_doc data now) = Except.ok () ∧
        fname = mom_filename data ∧ doc = generate_word_doc data now) := by
  refine ⟨?_, ?_, ?_⟩
  · intro e h
    simp [generate_word, h]
  · intro data e h hs
    simp [generate_word, h, hs]
  · intro fname doc mt h
    cases reqJson with
    | error e => simp [generate_word] at h
    | ok data =>
        cases hs : save (generate_word_doc data now) with
        | error e => simp [generate_word, hs] at h
        | ok u =>
            cases u
            simp only [generate_word, hs] at h
            obtain ⟨h1, h2, _⟩ := GenResult.fileResp.inj h
            exact ⟨data, rfl, hs, h1.symm, h2.symm⟩

/--
C9 witness: a malformed payload and a failing serializer each produce the
500 error body with the underlying message.
-/
theorem generate_word_failure_handling_witness :
    generate_word (Except.error "bad json") saveOk "ts" =
      GenResult.errResp 500 "bad json" ∧
    generate_word (Except.ok demoPayload)
        (fun _ => Except.error "save failed") "ts" =
      GenResult.errResp 500 "save failed" :=
  ⟨(generate_word_failure_handling (Except.error "bad json") saveOk
      "ts").1 "bad json" rfl,
   (generate_word_failure_handling (Except.ok demoPayload)
      (fun _ => Except.error "save failed") "ts").2.1 demoPayload
     "save failed" rfl rfl⟩

/--
C10 (confirmed): two payloads that agree on the eleven named scalar keys, on
the `text` fields of their `discussions`/`innovations`/`decisions` items and
on the action/responsibility/others/pdc/workcenter fields of their
`actionPoints` items produce the same document content (for the same render
timestamp) and the same filename; extra unrecognized keys and extra item
fields never influence the output.
-/
theorem generate_word_extra_keys_irrelevant (d1 d2 : Payload) (now : String)
    (hstr : ∀ k ∈ (["variantName", "partName", "subject", "meetingNumber",
        "title", "keywords", "date", "day", "time", "venue",
        "members"] : List String),
      List.lookup k d1 = List.lookup k d2)
    (hfree : ∀ k ∈ (["discussions", "innovations",
        "decisions"] : List String),
      (getArr d1 k).map (fun it => Item.get it "text") =
        (getArr d2 k).map (fun it => Item.get it "text"))
    (hap : (getArr d1 "actionPoints").map apFields =
      (getArr d2 "actionPoints").map apFields) :
    generate_word_doc d1 now = generate_word_doc d2 now ∧
      mom_filename d1 = mom_filename d2 := by
  constructor
  · unfold generate_word_doc
    rw [getStr_congr "variantName" "" (hstr _ (by simp)),
      getStr_congr "partName" "" (hstr _ (by simp)),
      getStr_congr "subject" "" (hstr _ (by simp)),
      getStr_congr "meetingNumber" "" (hstr _ (by simp)),
      getStr_congr "title" "" (hstr _ (by simp)),
      getStr_congr "keywords" "" (hstr _ (by simp)),
      getStr_congr "date" "" (hstr _ (by simp)),
      getStr_congr "day" "" (hstr _ (by simp)),
      getStr_congr "time" "" (hstr _ (by simp)),
      getStr_congr "venue" "" (hstr _ (by simp)),
      getStr_congr "members" "" (hstr _ (by simp)),
      add_section_congr "Discussions" "text" (hfree _ (by simp)),
      action_points_block_congr hap,
      add_section_congr "Innovativeness / Lessons Learnt" "text"
        (hfree _ (by simp)),
      add_section_congr "Decisions" "text" (hfree _ (by simp))]
  · unfold mom_filename
    rw [getStr_congr "meetingNumber" "Unknown" (hstr _ (by simp)),
      getStr_congr "date" "Unknown" (hstr _ (by simp))]

/--
C10 witness: adding an unrecognized key and an extra item field to a
payload changes neither the document nor the filename.
-/
theorem generate_word_extra_keys_irrelevant_witness :
    generate_word_doc demoPayload "ts" =
        generate_word_doc demoPayloadExtra "ts" ∧
      mom_filename demoPayload = mom_filename demoPayloadExtra :=
  generate_word_extra_keys_irrelevant demoPayload demoPayloadExtra "ts"
    (by decide) (by decide) (by decide)

end App
